import Mathlib

/-!
A verification development for the datafusion-fuzzer repository: shallow
embeddings of the deterministic RNG layer, the error-whitelist matcher, the
value generator's decimal and interval helpers, the dataset generator's row
count draw, the select-statement builder's table picking, the recursive
expression generator, the no-crash oracle's validation step, and the run
loop's seed derivation; together with theorems settling the spec's claims
about them.

Modelling conventions:
* Rust machine integers are modelled as `Int`/`Nat` with explicit
  two's-complement wrapping where the source casts or packs bits.
* The external `rand::StdRng` is modelled as a stream of natural-number
  draws (`Rng`): `random_range(lo..hi)` maps a draw into `[lo, hi)` via
  `%`, `random_range(lo..=hi)` into `[lo, hi]`, and `random_bool(p/q)`
  compares a draw `mod q` against `p`.  This preserves the contract that
  every value in the range (and only those) is reachable, and that the
  generator is a pure function of its seed.
* Fallible Rust functions returning `Result` are modelled with `Except`.
-/

set_option maxRecDepth 16384

namespace DatafusionFuzzer

/-! ## Deterministic RNG layer (src/rng.rs; rand::StdRng modelled as a draw stream) -/

/-- Model of a `rand::rngs::StdRng`: an infinite stream of natural-number
draws together with a position.  Each call to the generator consumes one
draw and advances the position. -/
structure Rng where
  stream : Nat → Nat
  pos : Nat

/-- Consume one raw draw from the stream. -/
def Rng.next (g : Rng) : Nat × Rng :=
  (g.stream g.pos, ⟨g.stream, g.pos + 1⟩)

/-- Model of `rng.random_range(lo..=hi)` (inclusive range). -/
def Rng.randomRangeIncl (g : Rng) (lo hi : Nat) : Nat × Rng :=
  let (d, g') := g.next
  (lo + d % (hi + 1 - lo), g')

/-- Model of `rng.random_range(lo..hi)` (exclusive upper bound). -/
def Rng.randomRangeExcl (g : Rng) (lo hi : Nat) : Nat × Rng :=
  let (d, g') := g.next
  (lo + d % (hi - lo), g')

/-- Model of `rng.random_bool(num/den)`: one draw, true with weight
`num` out of `den` (so `random_bool(0.5)` is `randomBool 1 2` and
`random_bool(0.9)` is `randomBool 9 10`). -/
def Rng.randomBool (g : Rng) (num den : Nat) : Bool × Rng :=
  let (d, g') := g.next
  (d % den < num, g')

/-! ## Error whitelist matcher (src/cli/error_whitelist.rs)

Error messages are modelled as `List Char` (`String.data` of the Rust
string).  `ErrorPattern::Contains` is `message.contains(pattern)`, i.e. a
substring test.  The two `ErrorPattern::RegexMatch` entries both have the
shapes `A(.+)B` or `A(.+)B(.+)` where `A`/`B` are literal strings and `.`
matches any character except a newline; they are embedded as dedicated
decidable matchers below. -/

/-- Model of `msg.contains(pattern)`: `pattern` occurs as a contiguous substring. -/
def listContains (pattern msg : List Char) : Bool :=
  msg.tails.any (fun t => pattern.isPrefixOf t)

/-- Matcher for the regex fragment `(.+)B…`: consume one or more
non-newline characters, then the literal `after`, then whatever the
continuation `k` demands of the remaining suffix. -/
def dotPlusThen (after : List Char) (k : List Char → Bool) : List Char → Bool
  | [] => false
  | c :: rest =>
    (c != '\n') &&
      ((after.isPrefixOf rest && k (rest.drop after.length)) || dotPlusThen after k rest)

/-- Unanchored match of the regex `A(.+)…`: some suffix of `msg` starts
with the literal `A`, followed by `dotPlusThen` applied per `tail`. -/
def regexAThenDotPlus (a : List Char) (tail : List Char → Bool) (msg : List Char) : Bool :=
  msg.tails.any (fun t => a.isPrefixOf t && tail (t.drop a.length))

/-- Continuation for a trailing `(.+)`: at least one non-newline character
must follow. -/
def trailingDotPlus : List Char → Bool
  | [] => false
  | c :: _ => c != '\n'

/-- Pattern 1, `ErrorPattern::Contains("Arrow error: Divide by zero error")`. -/
def pat1 : List Char := "Arrow error: Divide by zero error".data

/-- Literal head of pattern 2, the regex
`Error during planning: Cannot coerce arithmetic expression (.+) to valid types`. -/
def pat2A : List Char := "Error during planning: Cannot coerce arithmetic expression ".data

/-- Literal tail of pattern 2. -/
def pat2B : List Char := " to valid types".data

/-- Literal head of pattern 3, the regex
`Query execution failed: Arrow error: Cast error: value of (.+) is out of range UINT(.+)`. -/
def pat3A : List Char := "Query execution failed: Arrow error: Cast error: value of ".data

/-- Literal middle of pattern 3. -/
def pat3B : List Char := " is out of range UINT".data

/-- Pattern 4, `ErrorPattern::Contains("Projections require unique expression names")`. -/
def pat4 : List Char := "Projections require unique expression names".data

/-- Model of `is_error_whitelisted(error_msg)`: true iff some pattern in
`ERROR_PATTERNS` matches; `Contains` patterns by case-sensitive substring
test, regex patterns by unanchored regex match.  In pattern order:
pattern 1 is `Contains pat1`, pattern 2 is the regex `pat2A(.+)pat2B`,
pattern 3 is the regex `pat3A(.+)pat3B(.+)`, pattern 4 is
`Contains pat4`. -/
def is_error_whitelisted (msg : List Char) : Bool :=
  listContains pat1 msg ||
  regexAThenDotPlus pat2A (dotPlusThen pat2B (fun _ => true)) msg ||
  regexAThenDotPlus pat3A (dotPlusThen pat3B trailingDotPlus) msg ||
  listContains pat4 msg

/-! ## Decimal safe power of ten (src/common/value_generator.rs, `safe_power_of_10`) -/

/-- Rust `scale as u32` for an `i8` argument: two's-complement
reinterpretation of the sign-extended value in 32 bits. -/
def i8_as_u32 (scale : Int) : Nat :=
  (scale % (2 ^ 32 : Int)).toNat

/-- Model of `safe_power_of_10(scale: i8) -> i128`:
`let safe_scale = min(scale as u32, 30); match safe_scale { 0 => 1,
1..=30 => 10_i128.pow(safe_scale), _ => 10_i128.pow(30) }`. -/
def safe_power_of_10 (scale : Int) : Int :=
  let safe_scale := min (i8_as_u32 scale) 30
  if safe_scale = 0 then 1
  else if 1 ≤ safe_scale ∧ safe_scale ≤ 30 then (10 : Int) ^ safe_scale
  else (10 : Int) ^ (30 : Nat)

/-! ## IntervalMonthDayNano packing and SQL rendering
(src/common/value_generator.rs, `generate_value` IntervalMonthDayNano arm,
`to_sql_string`, `to_scalar_value`)

Rust's signed machine integers are modelled as `Int` together with
explicit two's-complement reinterpretation helpers: `toBits w x` is the
`w`-bit two's-complement bit pattern of `x` (a `Nat` below `2^w`), and
`ofBits w n` reads a `w`-bit pattern back as a signed value.  Bitwise
`|`/`&` act on the patterns; `<<` shifts the pattern (dropping overflow
bits as Rust does); arithmetic `>>` on a signed value is floor division
by a power of two. -/

/-- The `w`-bit two's-complement bit pattern of `x`. -/
def toBits (w : Nat) (x : Int) : Nat :=
  (x % ((2 : Int) ^ w)).toNat

/-- Read a `w`-bit two's-complement pattern as a signed integer. -/
def ofBits (w : Nat) (n : Nat) : Int :=
  if n < 2 ^ (w - 1) then (n : Int) else (n : Int) - 2 ^ w

/-- i128 left shift (`x << k`): shift the bit pattern, drop overflow. -/
def i128shl (x : Int) (k : Nat) : Int :=
  ofBits 128 ((toBits 128 x) <<< k % 2 ^ 128)

/-- i128 bitwise or. -/
def i128or (x y : Int) : Int :=
  ofBits 128 ((toBits 128 x) ||| (toBits 128 y))

/-- i128 bitwise and. -/
def i128and (x y : Int) : Int :=
  ofBits 128 ((toBits 128 x) &&& (toBits 128 y))

/-- i128 arithmetic right shift (`x >> k`): floor division by `2^k`. -/
def i128shr (x : Int) (k : Nat) : Int :=
  Int.fdiv x ((2 : Int) ^ k)

/-- Rust `y as i32` for an i128 `y`: truncate to the low 32 bits and
reinterpret as signed. -/
def asI32 (x : Int) : Int :=
  ofBits 32 ((toBits 128 x) % 2 ^ 32)

/-- Rust `y as i64` for an i128 `y`: truncate to the low 64 bits and
reinterpret as signed. -/
def asI64 (x : Int) : Int :=
  ofBits 64 ((toBits 128 x) % 2 ^ 64)

/-- The packing in `generate_value` (IntervalMonthDayNano arm):
`((months as i128) << 32) | ((days as i128) & 0xFFFFFFFF) | ((nanoseconds as i128) << 64)`. -/
def packInterval (months days nanoseconds : Int) : Int :=
  i128or (i128or (i128shl months 32) (i128and days 0xFFFFFFFF)) (i128shl nanoseconds 64)

/-- The months unpacking in `to_sql_string`/`to_scalar_value`:
`((v >> 32) & 0xFFFFFFFF) as i32`. -/
def unpackMonths (v : Int) : Int :=
  asI32 (i128and (i128shr v 32) 0xFFFFFFFF)

/-- The days unpacking: `(v & 0xFFFFFFFF) as i32`. -/
def unpackDays (v : Int) : Int :=
  asI32 (i128and v 0xFFFFFFFF)

/-- The nanoseconds unpacking: `((v >> 64) & 0xFFFFFFFFFFFFFFFF) as i64`. -/
def unpackNanoseconds (v : Int) : Int :=
  asI64 (i128and (i128shr v 64) 0xFFFFFFFFFFFFFFFF)

/-! ## Interval SQL rendering (src/common/value_generator.rs,
`to_sql_string` IntervalMonthDayNano arm)

The arm extracts (months, days, nanoseconds) from the packed i128 via
`unpackMonths`/`unpackDays`/`unpackNanoseconds` and then builds a list of
human-readable parts.  `i32::abs`/`i64::abs` are modelled with
`Int.natAbs` (they agree for every value except `i32::MIN`/`i64::MIN`,
where Rust `abs` panics; the theorems below exclude those inputs). -/

/-- The parts pushed when `months != 0`: years and remaining months. -/
def monthParts (months : Int) : List String :=
  if months = 0 then []
  else
    let absMonths := months.natAbs
    let years := absMonths / 12
    let remainingMonths := absMonths % 12
    (if 0 < years then
        [toString years ++ " year" ++ (if years = 1 then "" else "s")]
      else []) ++
    (if 0 < remainingMonths then
        [toString remainingMonths ++ " month" ++ (if remainingMonths = 1 then "" else "s")]
      else [])

/-- The part pushed when `days != 0`. -/
def dayParts (days : Int) : List String :=
  if days = 0 then []
  else [toString days.natAbs ++ " day" ++ (if days.natAbs = 1 then "" else "s")]

/-- The parts pushed when `nanoseconds != 0`: hours, minutes and whole
seconds of the absolute value; any sub-second remainder is dropped. -/
def nanoParts (nanoseconds : Int) : List String :=
  if nanoseconds = 0 then []
  else
    let absNs := nanoseconds.natAbs
    let hours := absNs / (60 * 60 * 1000000000)
    let remNs := absNs % (60 * 60 * 1000000000)
    let minutes := remNs / (60 * 1000000000)
    let remNs2 := remNs % (60 * 1000000000)
    let seconds := remNs2 / 1000000000
    (if 0 < hours then
        [toString hours ++ " hour" ++ (if hours = 1 then "" else "s")]
      else []) ++
    (if 0 < minutes then
        [toString minutes ++ " minute" ++ (if minutes = 1 then "" else "s")]
      else []) ++
    (if 0 < seconds then
        [toString seconds ++ " second" ++ (if seconds = 1 then "" else "s")]
      else [])

/-- All parts, in source push order: months block, days block,
nanoseconds block. -/
def intervalParts (months days nanoseconds : Int) : List String :=
  monthParts months ++ dayParts days ++ nanoParts nanoseconds

/-- Model of `Vec::join(" ")`. -/
def joinSpace : List String → String
  | [] => ""
  | [s] => s
  | s :: rest => s ++ " " ++ joinSpace rest

/-- The rendering of the extracted components:
`INTERVAL '0'` when no part was pushed, else `INTERVAL '<parts joined by spaces>'`. -/
def intervalRender (months days nanoseconds : Int) : String :=
  let parts := intervalParts months days nanoseconds
  if parts.isEmpty then "INTERVAL '0'"
  else "INTERVAL '" ++ joinSpace parts ++ "'"

/-- The full `to_sql_string` IntervalMonthDayNano arm on a packed i128. -/
def intervalToSqlString (v : Int) : String :=
  intervalRender (unpackMonths v) (unpackDays v) (unpackNanoseconds v)

/-! ## Dataset generator (src/datasource_generator/dataset_generator.rs)

`generate_dataset` draws the column count with
`rng.random_range(1..=cfg_max_col_count)`, then one type per column from
the available-type list, then the row count with
`rng.random_range(0..cfg_max_row_count)` — note the *exclusive* upper
bound in the source.  Only the schema/row-count prefix is embedded (value
generation and the engine-side `MemTable` registration follow). -/

/-- The logical type tags of src/common/mod.rs (`FuzzerDataType`). -/
inductive FuzzerDataType where
  | int32
  | int64
  | uint32
  | uint64
  | float32
  | float64
  | boolean
  | decimal
  | date32
  | time64Nanosecond
  | timestamp
  | intervalMonthDayNano
  deriving DecidableEq, Repr

/-- Model of `get_available_data_types()`: the list installed by
`init_available_data_types()`. -/
def availableDataTypes : List FuzzerDataType :=
  [.int32, .int64, .uint32, .uint64, .float32, .float64, .boolean, .decimal,
   .date32, .time64Nanosecond, .timestamp, .intervalMonthDayNano]

/-- One column-type draw:
`available_types[rng.random_range(0..available_types.len())]`. -/
def drawColumnType (g : Rng) : FuzzerDataType × Rng :=
  let (i, g') := g.randomRangeExcl 0 availableDataTypes.length
  (availableDataTypes.getD i .int32, g')

/-- The per-column type draws of `generate_dataset`. -/
def drawColumnTypes (g : Rng) : Nat → List FuzzerDataType × Rng
  | 0 => ([], g)
  | n + 1 =>
    let (t, g') := drawColumnType g
    let (ts, g'') := drawColumnTypes g' n
    (t :: ts, g'')

/-- The schema-and-row-count prefix of `generate_dataset`: draw
`num_columns ∈ [1, max_column_count]`, draw each column's type, then draw
`actual_row_count` with `rng.random_range(0..cfg_max_row_count)`. -/
def generateDatasetSchema (g : Rng) (maxColumnCount maxRowCount : Nat) :
    List FuzzerDataType × Nat × Rng :=
  let (numColumns, g) := g.randomRangeIncl 1 maxColumnCount
  let (types, g) := drawColumnTypes g numColumns
  let (rowCount, g) := g.randomRangeExcl 0 maxRowCount
  (types, rowCount, g)

/-- The row count drawn by `generate_dataset`. -/
def datasetRowCount (g : Rng) (maxColumnCount maxRowCount : Nat) : Nat :=
  (generateDatasetSchema g maxColumnCount maxRowCount).2.1

/-- A row count `k` is a possible outcome of `generate_dataset` under the
given configuration if some RNG stream produces it. -/
def rowCountPossible (maxColumnCount maxRowCount k : Nat) : Prop :=
  ∃ g : Rng, datasetRowCount g maxColumnCount maxRowCount = k

/-! ## Query generator data model
(src/common/mod.rs, src/query_generator/expr_def.rs, expr_impl.rs)

The engine's `DataType` is embedded with exactly the variants the fuzzer
produces; `FuzzerDataType.toDatafusionType`, the numeric/time
classification and the operator catalog follow the source. -/

/-- The engine data types reachable from `FuzzerDataType::to_datafusion_type`. -/
inductive DataType where
  | int32
  | int64
  | uint32
  | uint64
  | float32
  | float64
  | boolean
  | decimal128 (precision : Nat) (scale : Int)
  | date32
  | time64Nanosecond
  | timestampNanosecond
  | intervalMonthDayNano
  deriving DecidableEq, Repr

/-- Model of `FuzzerDataType::to_datafusion_type` (the Decimal variant maps to the
default `Decimal128(10, 2)`). -/
def FuzzerDataType.toDatafusionType : FuzzerDataType → DataType
  | .int32 => .int32
  | .int64 => .int64
  | .uint32 => .uint32
  | .uint64 => .uint64
  | .float32 => .float32
  | .float64 => .float64
  | .boolean => .boolean
  | .decimal => .decimal128 10 2
  | .date32 => .date32
  | .time64Nanosecond => .time64Nanosecond
  | .timestamp => .timestampNanosecond
  | .intervalMonthDayNano => .intervalMonthDayNano

/-- Model of `FuzzerDataType::from_datafusion_type`. -/
def FuzzerDataType.fromDatafusionType : DataType → Option FuzzerDataType
  | .int32 => some .int32
  | .int64 => some .int64
  | .uint32 => some .uint32
  | .uint64 => some .uint64
  | .float32 => some .float32
  | .float64 => some .float64
  | .boolean => some .boolean
  | .decimal128 _ _ => some .decimal
  | .date32 => some .date32
  | .time64Nanosecond => some .time64Nanosecond
  | .timestampNanosecond => some .timestamp
  | .intervalMonthDayNano => some .intervalMonthDayNano

/-- Model of `FuzzerDataType::is_numeric`. -/
def FuzzerDataType.isNumeric : FuzzerDataType → Bool
  | .int32 | .int64 | .uint32 | .uint64 | .float32 | .float64 | .decimal => true
  | .boolean | .date32 | .time64Nanosecond | .timestamp | .intervalMonthDayNano => false

/-- Model of `FuzzerDataType::is_time`. -/
def FuzzerDataType.isTime : FuzzerDataType → Bool
  | .date32 | .time64Nanosecond | .timestamp | .intervalMonthDayNano => true
  | .int32 | .int64 | .uint32 | .uint64 | .float32 | .float64 | .boolean | .decimal => false

/-- Model of `get_numeric_data_types()`. -/
def getNumericDataTypes : List FuzzerDataType :=
  availableDataTypes.filter (fun t => t.isNumeric)

/-- Model of `get_time_data_types()`. -/
def getTimeDataTypes : List FuzzerDataType :=
  availableDataTypes.filter (fun t => t.isTime)

/-- A registered `LogicalTable`: its name plus its schema's fields (field
name and engine data type). -/
structure LogicalTable where
  name : String
  columns : List (String × DataType)
  deriving DecidableEq, Repr

/-- A `datafusion::common::Column`: a table-qualified column reference. -/
structure Column where
  relation : String
  name : String
  deriving DecidableEq, Repr

/-- Model of `BaseExpr` from expr_def.rs, in declaration (= `EnumIter`) order. -/
inductive BaseExpr where
  | add
  | sub
  | mul
  | div
  | mod
  | and
  | or
  deriving DecidableEq, Repr

/-- Model of `TypeGroup` from expr_def.rs. -/
inductive TypeGroup where
  | sameAsOutput
  | fixed (dt : DataType)
  | oneOf (dts : List DataType)
  deriving DecidableEq, Repr

/-- Model of `ExprWrapper` from expr_def.rs. -/
structure ExprWrapper where
  expr : BaseExpr
  returnType : List DataType
  inferredChildSignature : List (List TypeGroup)
  deriving DecidableEq, Repr

/-- The Add/Sub return types: numeric plus time types (expr_impl.rs). -/
def addSubReturnTypes : List DataType :=
  (getNumericDataTypes ++ getTimeDataTypes).map (fun t => t.toDatafusionType)

/-- The Mul/Div/Mod return types: numeric types only (expr_impl.rs). -/
def numericReturnTypes : List DataType :=
  getNumericDataTypes.map (fun t => t.toDatafusionType)

/-- Model of `all_available_exprs()`: one wrapper per `BaseExpr` variant, in
`EnumIter` order, with the signatures from expr_impl.rs (every operator
has the single signature `[SameAsOutput, SameAsOutput]`). -/
def allAvailableExprs : List ExprWrapper :=
  [⟨.add, addSubReturnTypes, [[.sameAsOutput, .sameAsOutput]]⟩,
   ⟨.sub, addSubReturnTypes, [[.sameAsOutput, .sameAsOutput]]⟩,
   ⟨.mul, numericReturnTypes, [[.sameAsOutput, .sameAsOutput]]⟩,
   ⟨.div, numericReturnTypes, [[.sameAsOutput, .sameAsOutput]]⟩,
   ⟨.mod, numericReturnTypes, [[.sameAsOutput, .sameAsOutput]]⟩,
   ⟨.and, [.boolean], [[.sameAsOutput, .sameAsOutput]]⟩,
   ⟨.or, [.boolean], [[.sameAsOutput, .sameAsOutput]]⟩]

/-- A generated `datafusion::prelude::Expr`, restricted to the shapes the
generator emits.  A literal records the fuzzer type it was generated for
and the raw RNG draw consumed by `generate_scalar_literal` (the concrete
`ScalarValue` payload is engine-side and abstracted to that draw). -/
inductive Expr where
  | column (c : Column)
  | literal (t : FuzzerDataType) (draw : Nat)
  | binary (op : BaseExpr) (left : Expr) (right : Expr)
  deriving DecidableEq, Repr

/-- Operator-nesting depth: leaves are 0, a binary node is one more than
its deepest child. -/
def exprDepth : Expr → Nat
  | .column _ => 0
  | .literal _ _ => 0
  | .binary _ l r => 1 + max (exprDepth l) (exprDepth r)

/-- A leaf is a column reference or a literal. -/
def Expr.isLeaf : Expr → Bool
  | .column _ => true
  | .literal _ _ => true
  | .binary _ _ _ => false

/-! ## Expression generator (src/query_generator/expr_gen.rs)

`generate_random_expr(target_type, cur_level)` recurses with
`cur_level + 1` and stops at `cur_level == max_level`; it is embedded
with an explicit fuel argument `fuel = max_level - cur_level`, so the
`cur_level == max_level` test becomes `fuel = 0` and the recursive calls
at `cur_level + 1` use `fuel - 1`. -/

/-- Model of `ExprGenerator::get_all_columns_of_type`: the source columns whose
field (looked up by table name, then field name, in the registered-table
map) has the target type. -/
def getAllColumnsOfType (registry : List LogicalTable) (srcColumns : List Column)
    (targetType : DataType) : List Column :=
  srcColumns.filter (fun c =>
    match registry.find? (fun t => t.name == c.relation) with
    | some t =>
      match t.columns.lookup c.name with
      | some dt => dt == targetType
      | none => false
    | none => false)

/-- The literal half of `generate_leaf_expr`: a literal of the fuzzer
type corresponding to the target type, or a Boolean literal for
unsupported types.  `generate_scalar_literal`'s internal draws are
abstracted to one raw draw recorded in the literal. -/
def literalLeaf (g : Rng) (targetType : DataType) : Expr × Rng :=
  let (d, g') := g.next
  match FuzzerDataType.fromDatafusionType targetType with
  | some ft => (.literal ft d, g')
  | none => (.literal .boolean d, g')

/-- Model of `ExprGenerator::generate_leaf_expr`: when a matching column exists,
flip a 0.5 coin and either reference a random matching column or fall
through to a literal (the coin is only drawn when the column list is
non-empty, matching the short-circuit `&&` in the source). -/
def generateLeafExpr (registry : List LogicalTable) (srcColumns : List Column)
    (g : Rng) (targetType : DataType) : Expr × Rng :=
  let columns := getAllColumnsOfType registry srcColumns targetType
  if columns.isEmpty then
    literalLeaf g targetType
  else
    let cb := g.randomBool 1 2
    if cb.1 then
      let ib := cb.2.randomRangeExcl 0 columns.length
      (.column (columns.getD ib.1 ⟨"", ""⟩), ib.2)
    else
      literalLeaf cb.2 targetType

/-- Model of `ExprGenerator::pick_random_expr_with_return_type`: filter the
catalog by return type; `None` (no draw) when nothing matches, else a
uniformly drawn wrapper. -/
def pickRandomExprWithReturnType (g : Rng) (targetType : DataType) :
    Option ExprWrapper × Rng :=
  let matching := allAvailableExprs.filter (fun w => w.returnType.contains targetType)
  if matching.isEmpty then (none, g)
  else
    let (i, g') := g.randomRangeExcl 0 matching.length
    (some (matching.getD i ⟨.add, [], []⟩), g')

/-- Resolving one child-type signature (`ExprWrapper::pick_child_signature`
body): `SameAsOutput` becomes the output type, `Fixed` its type, `OneOf`
a uniformly drawn member. -/
def resolveSignature : List TypeGroup → DataType → Rng → List DataType × Rng
  | [], _, g => ([], g)
  | tg :: rest, outputType, g =>
    let (dt, g') :=
      match tg with
      | .sameAsOutput => (outputType, g)
      | .fixed d => (d, g)
      | .oneOf ds =>
        let (i, g'') := g.randomRangeExcl 0 ds.length
        (ds.getD i .boolean, g'')
    let (dts, g'') := resolveSignature rest outputType g'
    (dt :: dts, g'')

/-- Model of `ExprWrapper::pick_child_signature`: draw one of the possible
signatures, then resolve each `TypeGroup` in it. -/
def pickChildSignature (w : ExprWrapper) (outputType : DataType) (g : Rng) :
    List DataType × Rng :=
  let (si, g') := g.randomRangeExcl 0 w.inferredChildSignature.length
  resolveSignature (w.inferredChildSignature.getD si []) outputType g'

/-- Model of `ExprGenerator::build_with_childs`: every catalog operator builds a
binary `Expr::BinaryExpr(child_exprs[0], op, child_exprs[1])`; the
per-operator match arms of the source all share this shape, so they are
collapsed into one constructor application (a missing child would panic
in Rust; the default literal here is unreachable because every catalog
signature is binary). -/
def buildWithChilds (op : BaseExpr) (childExprs : List Expr) : Expr :=
  .binary op (childExprs.getD 0 (.literal .boolean 0)) (childExprs.getD 1 (.literal .boolean 0))

mutual

/-- Model of `ExprGenerator::generate_random_expr` with
`fuel = max_level - cur_level`: draw the 0.5 coin, emit a leaf if the
hard cap is reached (`fuel = 0`) or the coin came up, otherwise pick an
operator producing the target type (leaf fallback when none exists),
resolve a child signature, generate the children one level deeper and
combine them. -/
def generateRandomExpr (registry : List LogicalTable) (srcColumns : List Column)
    (fuel : Nat) (g : Rng) (targetType : DataType) : Expr × Rng :=
  let hc := g.randomBool 1 2
  if h : fuel = 0 then
    generateLeafExpr registry srcColumns hc.2 targetType
  else if hc.1 then
    generateLeafExpr registry srcColumns hc.2 targetType
  else
    match pickRandomExprWithReturnType hc.2 targetType with
    | (none, g2) => generateLeafExpr registry srcColumns g2 targetType
    | (some w, g2) =>
      let sg := pickChildSignature w targetType g2
      let ch := generateChildren registry srcColumns (fuel - 1) sg.2 sg.1
      (buildWithChilds w.expr ch.1, ch.2)
termination_by (fuel, 0)

/-- The child-generation loop of `generate_random_expr`: one recursive
call per resolved child type, threading the RNG left to right. -/
def generateChildren (registry : List LogicalTable) (srcColumns : List Column)
    (fuel : Nat) (g : Rng) (sig : List DataType) : List Expr × Rng :=
  match sig with
  | [] => ([], g)
  | t :: ts =>
    let e := generateRandomExpr registry srcColumns fuel g t
    let rest := generateChildren registry srcColumns fuel e.2 ts
    (e.1 :: rest.1, rest.2)
termination_by (fuel, sig.length + 1)

end

/-! ## Select statement builder (src/query_generator/stmt_select_def.rs)

The table registry is the name-keyed `registered_tables` map, read out
and sorted by name in `pick_src_tables`; it is modelled as the resulting
duplicate-free list of `LogicalTable`s.  `rand`'s
`choose_multiple(&mut rng, amount)` (sampling without replacement) is
modelled by repeatedly drawing an index into the remaining list and
removing the chosen element. -/

/-- Model of `slice::choose_multiple(rng, amount)`: draw a uniform index
into the remaining elements, remove the choice, repeat. -/
def chooseMultiple (g : Rng) (l : List LogicalTable) : Nat → List LogicalTable × Rng
  | 0 => ([], g)
  | n + 1 =>
    if h : l = [] then ([], g)
    else
      let nx := g.next
      let x := l.get ⟨nx.1 % l.length, Nat.mod_lt nx.1 (List.length_pos.mpr h)⟩
      let res := chooseMultiple nx.2 (l.erase x) n
      (x :: res.1, res.2)

/-- The error message of `pick_src_tables` on an empty registry. -/
def emptyRegistryError : String :=
  "No available tables registered inside fuzzer context."

/-- Model of `SelectStatementBuilder::pick_src_tables`: draw
`num_src_tables ∈ [1, max_table_count]`, fail if the registry is empty,
otherwise choose `min(num_src_tables, registry.len())` distinct tables
without replacement. -/
def pick_src_tables (g : Rng) (maxTableCount : Nat) (registry : List LogicalTable) :
    Except String (List LogicalTable × Rng) :=
  let nr := g.randomRangeIncl 1 maxTableCount
  if registry.isEmpty then
    .error emptyRegistryError
  else
    let numTables := min nr.1 registry.length
    let res := chooseMultiple nr.2 registry numTables
    .ok (res.1, res.2)

/-- Model of `ExprGenerator::tables_to_columns`: every field of every selected
table, table-qualified. -/
def tablesToColumns (tables : List LogicalTable) : List Column :=
  (tables.map (fun t => t.columns.map (fun c => Column.mk t.name c.1))).flatten

/-- The select-expression loop of `generate_select_exprs`: the target
type of each expression is drawn from the builder's RNG, the expression
itself from the expression generator's RNG (threaded separately, as in
the source). -/
def selectExprsLoop (registry : List LogicalTable) (srcColumns : List Column)
    (maxExprLevel : Nat) : Nat → Rng → Rng → List Expr × Rng × Rng
  | 0, g, eg => ([], g, eg)
  | n + 1, g, eg =>
    let ti := g.randomRangeExcl 0 availableDataTypes.length
    let ft := availableDataTypes.getD ti.1 .int32
    let e := generateRandomExpr registry srcColumns maxExprLevel eg ft.toDatafusionType
    let rest := selectExprsLoop registry srcColumns maxExprLevel n ti.2 e.2
    (e.1 :: rest.1, rest.2)

/-- Model of `SelectStatementBuilder::generate_select_exprs`: draw
`num_select_exprs ∈ [1, max_expr_level]` then run the loop. -/
def generateSelectExprs (registry : List LogicalTable) (srcColumns : List Column)
    (maxExprLevel : Nat) (g eg : Rng) : List Expr × Rng × Rng :=
  let ns := g.randomRangeIncl 1 maxExprLevel
  selectExprsLoop registry srcColumns maxExprLevel ns.1 ns.2 eg

/-- Model of `SelectStatementBuilder::generate_where_clause`: with probability 0.9
generate a Boolean expression at level 0, else no WHERE clause. -/
def generateWhereClause (registry : List LogicalTable) (srcColumns : List Column)
    (maxExprLevel : Nat) (g eg : Rng) : Option Expr × Rng × Rng :=
  let cb := g.randomBool 9 10
  if cb.1 then
    let e := generateRandomExpr registry srcColumns maxExprLevel eg .boolean
    (some e.1, cb.2, e.2)
  else
    (none, cb.2, eg)

/-- A generated `SelectStatement`: the select expressions, the FROM
tables (none aliased in `generate_stmt`), and the optional WHERE
predicate. -/
structure SelectStatement where
  selectExprs : List Expr
  fromTables : List LogicalTable
  whereClause : Option Expr
  deriving DecidableEq, Repr

/-- Model of `SelectStatementBuilder::generate_stmt`: pick the source tables
(propagating the empty-registry error), seed a fresh expression-generator
RNG from a draw of the builder RNG (`rngFromSeed` models
`rng_from_seed`), build the select list and the optional WHERE clause,
and assemble the statement. -/
def generate_stmt (rngFromSeed : Nat → Rng) (maxTableCount maxExprLevel : Nat)
    (g : Rng) (registry : List LogicalTable) : Except String SelectStatement :=
  match pick_src_tables g maxTableCount registry with
  | .error e => .error e
  | .ok st =>
    let srcTables := st.1
    let ns := st.2.next
    let eg := rngFromSeed ns.1
    let srcColumns := tablesToColumns srcTables
    let se := generateSelectExprs registry srcColumns maxExprLevel ns.2 eg
    let wc := generateWhereClause registry srcColumns maxExprLevel se.2.1 se.2.2
    .ok ⟨se.1, srcTables, wc.1⟩

/-! ## No-crash oracle (src/oracle/oracle_impl_no_crash.rs)

`QueryExecutionResult` pairs a query with its rows-or-error outcome; the
engine-side row data is abstracted to the success flag, which is all
`validate_consistency` could even inspect. -/

/-- A `QueryExecutionResult`: the executed query and whether its
`Result` was `Ok`. -/
structure QueryExecutionResult where
  query : String
  succeeded : Bool
  deriving DecidableEq, Repr

/-- Model of `NoCrashOracle::validate_consistency`: error on an empty result
slice, otherwise always pass (the whitelist check happens earlier, in
`execute_single_query`). -/
def validate_consistency (results : List QueryExecutionResult) : Except String Unit :=
  if results.isEmpty then .error "No query results to validate"
  else .ok ()

/-! ## Fuzzing run loop (src/cli/runner.rs, `run_fuzzer`)

The loop derives every seed from the base seed and the round/query
indices with `u64::wrapping_add`, and builds each phase's RNG with
`StdRng::seed_from_u64` on that derived seed.  The phases themselves
(dataset generation, view generation, one oracle test) interact with the
external engine; they are modelled as arbitrary *deterministic* functions
of the derived seed and the run state, which is exactly what the source
constructs (each phase reads entropy only from its seeded RNG).  The
oracle test records the generated query and its pass/fail outcome. -/

/-- Model of `u64::wrapping_add`. -/
def wrappingAdd64 (a b : Nat) : Nat := (a + b) % 2 ^ 64

/-- The deterministic phase functions of `run_fuzzer` over an abstract
run state `σ` (registry, name counter, engine session): each consumes
the seed derived for it plus the current state, and nothing else. -/
structure PipelinePhases (σ : Type) where
  initState : σ
  resetTableCounter : σ → σ
  generateDatasetsForRound : Nat → σ → σ × List String
  generateViewsForRound : Nat → σ → σ
  executeOracleTest : Nat → σ → σ × (String × Bool)
  resetDatafusionContext : σ → σ

/-- The inner query loop of a round: for `i` in `0..queries_per_round`,
run one oracle test at seed `query_base_seed.wrapping_add(i)`. -/
def queryLoop {σ : Type} (ph : PipelinePhases σ) (queryBaseSeed : Nat) :
    Nat → Nat → σ → σ × List (String × Bool)
  | _, 0, s => (s, [])
  | i, n + 1, s =>
    let r := ph.executeOracleTest (wrappingAdd64 queryBaseSeed i) s
    let rest := queryLoop ph queryBaseSeed (i + 1) n r.1
    (rest.1, r.2 :: rest.2)

/-- The round loop of `run_fuzzer`: derive `dataset_seed`, `view_seed`
and `query_base_seed` from the base seed and the round index, run the
three phases, and reset the engine context between rounds (but not after
the last). -/
def roundLoop {σ : Type} (ph : PipelinePhases σ) (seed queriesPerRound : Nat) :
    Nat → Nat → σ → List String × List (String × Bool)
  | _, 0, _ => ([], [])
  | round, n + 1, s =>
    let datasetSeed := wrappingAdd64 seed (round * 1000)
    let viewSeed := wrappingAdd64 seed (round * 1000 + 100)
    let queryBaseSeed := wrappingAdd64 seed (round * 1000 + 200)
    let ds := ph.generateDatasetsForRound datasetSeed s
    let s2 := ph.generateViewsForRound viewSeed ds.1
    let qs := queryLoop ph queryBaseSeed 0 queriesPerRound s2
    let s3 := if n = 0 then qs.1 else ph.resetDatafusionContext qs.1
    let rest := roundLoop ph seed queriesPerRound (round + 1) n s3
    (ds.2 ++ rest.1, qs.2 ++ rest.2)

/-- Model of `run_fuzzer`: reset the table counter, then run every round; the
trace collects the generated table names and, per executed oracle test,
the generated query string and its pass/fail outcome. -/
def run_fuzzer {σ : Type} (ph : PipelinePhases σ) (rounds queriesPerRound seed : Nat) :
    List String × List (String × Bool) :=
  roundLoop ph seed queriesPerRound 0 rounds (ph.resetTableCounter ph.initState)

/-! ## Theorems -/

/-- C2: `is_error_whitelisted("Arrow error: Divide by zero error")` is true;
every message containing that exact substring is whitelisted; the
all-uppercase variant is not (exact patterns are case-sensitive substring
tests); the empty string is not; and a message matching no pattern, such
as "Some unrelated error", is not. -/
theorem c2_whitelist_matching :
    is_error_whitelisted "Arrow error: Divide by zero error".data = true ∧
    (∀ msg : List Char, listContains pat1 msg = true → is_error_whitelisted msg = true) ∧
    is_error_whitelisted "ARROW ERROR: DIVIDE BY ZERO ERROR".data = false ∧
    is_error_whitelisted "".data = false ∧
    is_error_whitelisted "Some unrelated error".data = false := by
  refine ⟨by decide, ?_, by decide, by decide, by decide⟩
  intro msg h
  simp [is_error_whitelisted, h]

/-- Witness for C2: the substring clause applied to the spec's example
message "Query failed: ... Arrow error: Divide by zero error ...". -/
theorem c2_whitelist_matching_witness :
    is_error_whitelisted "Query failed: x Arrow error: Divide by zero error y".data = true :=
  c2_whitelist_matching.2.1 "Query failed: x Arrow error: Divide by zero error y".data
    (by decide)

/-- C3: for every scale in [0, 76], `safe_power_of_10` returns a positive
value below `i128::MAX` (no panic/overflow); for scale in [0, 30] it
returns exactly `10^scale`; for scale above 30 it saturates at `10^30`. -/
theorem c3_safe_power_of_10_saturates (s : Int) (h0 : 0 ≤ s) (h76 : s ≤ 76) :
    (0 < safe_power_of_10 s ∧ safe_power_of_10 s < 2 ^ 127) ∧
    (s ≤ 30 → safe_power_of_10 s = 10 ^ s.toNat) ∧
    (30 < s → safe_power_of_10 s = 10 ^ (30 : Nat)) := by
  have h32 : (2 : Int) ^ 32 = 4294967296 := by norm_num
  have hcast : i8_as_u32 s = s.toNat := by
    unfold i8_as_u32
    rw [h32]
    omega
  by_cases h30 : s ≤ 30
  · have hmin : min (i8_as_u32 s) 30 = s.toNat := by
      rw [hcast]
      omega
    have hval : safe_power_of_10 s = 10 ^ s.toNat := by
      simp only [safe_power_of_10, hmin]
      by_cases hz : s.toNat = 0
      · simp [hz]
      · have h1 : 1 ≤ s.toNat ∧ s.toNat ≤ 30 := by omega
        simp [hz, h1]
    refine ⟨?_, fun _ => hval, fun hgt => absurd hgt (by omega)⟩
    rw [hval]
    constructor
    · positivity
    · calc (10 : Int) ^ s.toNat ≤ 10 ^ (30 : Nat) := by
            exact pow_le_pow_right₀ (by norm_num) (by omega)
        _ < 2 ^ 127 := by norm_num
  · have hmin : min (i8_as_u32 s) 30 = 30 := by
      rw [hcast]
      omega
    have hval : safe_power_of_10 s = 10 ^ (30 : Nat) := by
      simp [safe_power_of_10, hmin]
    refine ⟨?_, fun hle => absurd hle h30, fun _ => hval⟩
    rw [hval]
    constructor
    · positivity
    · norm_num

/-- Witness for C3 at scales 17 and 40. -/
theorem c3_safe_power_of_10_saturates_witness :
    safe_power_of_10 17 = 10 ^ (17 : Nat) ∧ safe_power_of_10 40 = 10 ^ (30 : Nat) :=
  ⟨by
    have h := (c3_safe_power_of_10_saturates 17 (by norm_num) (by norm_num)).2.1 (by norm_num)
    simpa using h,
   (c3_safe_power_of_10_saturates 40 (by norm_num) (by norm_num)).2.2 (by norm_num)⟩

/-- C10: for every strictly negative i8 scale, the `scale as u32` cast
wraps to a value far above 30, so `safe_power_of_10` returns the saturated
maximum `10^30` (not 1, and without panicking). -/
theorem c10_safe_power_of_10_negative_scale (s : Int) (hlo : -128 ≤ s) (hhi : s < 0) :
    safe_power_of_10 s = 10 ^ (30 : Nat) ∧ safe_power_of_10 s ≠ 1 := by
  have h32 : (2 : Int) ^ 32 = 4294967296 := by norm_num
  have hcast : 30 < i8_as_u32 s := by
    unfold i8_as_u32
    rw [h32]
    omega
  have hmin : min (i8_as_u32 s) 30 = 30 := by omega
  have hval : safe_power_of_10 s = 10 ^ (30 : Nat) := by
    simp [safe_power_of_10, hmin]
  refine ⟨hval, ?_⟩
  rw [hval]
  norm_num

/-- Witness for C10 at scale -1. -/
theorem c10_safe_power_of_10_negative_scale_witness :
    safe_power_of_10 (-1) = 10 ^ (30 : Nat) :=
  (c10_safe_power_of_10_negative_scale (-1) (by norm_num) (by norm_num)).1

/-- C4: the pack/unpack round trip fails on the in-range input
(months, days, nanoseconds) = (-1, 0, 0).  Packing a negative months
value sign-extends into bits 64..127 (the term `(months as i128) << 32`
is not masked to 32 bits before the bitwise or), so unpacking returns
nanoseconds = -1 instead of the original 0; months and days are still
recovered.  On an input with nonnegative months, such as (3, -7, 123),
all three components round-trip. -/
theorem c4_interval_pack_unpack_bug :
    unpackMonths (packInterval (-1) 0 0) = -1 ∧
    unpackDays (packInterval (-1) 0 0) = 0 ∧
    unpackNanoseconds (packInterval (-1) 0 0) = -1 ∧
    unpackNanoseconds (packInterval (-1) 0 0) ≠ 0 ∧
    unpackMonths (packInterval 3 (-7) 123) = 3 ∧
    unpackDays (packInterval 3 (-7) 123) = -7 ∧
    unpackNanoseconds (packInterval 3 (-7) 123) = 123 := by
  refine ⟨by decide, by decide, by decide, by decide, by decide, by decide, by decide⟩

theorem monthParts_eq_nil_iff (m : Int) : monthParts m = [] ↔ m = 0 := by
  unfold monthParts
  by_cases hm : m = 0
  · simp [hm]
  · rw [if_neg hm]
    constructor
    · intro h
      exfalso
      have habs : 0 < m.natAbs := Int.natAbs_pos.mpr hm
      rcases List.append_eq_nil.mp h with ⟨h1, h2⟩
      by_cases hy : 0 < m.natAbs / 12
      · simp [hy] at h1
      · have hr : 0 < m.natAbs % 12 := by omega
        simp [hr] at h2
    · intro h
      exact absurd h hm

theorem dayParts_eq_nil_iff (d : Int) : dayParts d = [] ↔ d = 0 := by
  unfold dayParts
  by_cases hd : d = 0
  · simp [hd]
  · simp [hd]

theorem nanoParts_eq_nil_iff (ns : Int) :
    nanoParts ns = [] ↔ ns.natAbs < 1000000000 := by
  unfold nanoParts
  by_cases hn : ns = 0
  · simp [hn]
  · rw [if_neg hn]
    constructor
    · intro h
      rcases List.append_eq_nil.mp h with ⟨h12, h3⟩
      rcases List.append_eq_nil.mp h12 with ⟨h1, h2⟩
      by_cases hh : 0 < ns.natAbs / (60 * 60 * 1000000000)
      · simp [hh] at h1
      · by_cases hm : 0 < ns.natAbs % (60 * 60 * 1000000000) / (60 * 1000000000)
        · simp [hm] at h2
        · by_cases hs :
              0 < ns.natAbs % (60 * 60 * 1000000000) % (60 * 1000000000) / 1000000000
          · simp [hs] at h3
          · omega
    · intro h
      have hh : ¬ 0 < ns.natAbs / (60 * 60 * 1000000000) := by omega
      have hm : ¬ 0 < ns.natAbs % (60 * 60 * 1000000000) / (60 * 1000000000) := by omega
      have hs : ¬ 0 < ns.natAbs % (60 * 60 * 1000000000) % (60 * 1000000000) / 1000000000 := by
        omega
      simp [hh, hm, hs]

theorem intervalParts_eq_nil_iff (m d ns : Int) :
    intervalParts m d ns = [] ↔ (m = 0 ∧ d = 0 ∧ ns.natAbs < 1000000000) := by
  unfold intervalParts
  rw [List.append_eq_nil, List.append_eq_nil]
  rw [monthParts_eq_nil_iff, dayParts_eq_nil_iff, nanoParts_eq_nil_iff]
  tauto

theorem four_le_len2 (a u : String) (hu : 4 ≤ u.length) : 4 ≤ (a ++ u).length := by
  rw [String.length_append]
  omega

theorem four_le_len3 (a u c : String) (hu : 4 ≤ u.length) : 4 ≤ (a ++ u ++ c).length := by
  rw [String.length_append, String.length_append]
  omega

theorem intervalParts_length_ge (m d ns : Int) :
    ∀ p ∈ intervalParts m d ns, 4 ≤ p.length := by
  intro p hp
  unfold intervalParts at hp
  rw [List.mem_append, List.mem_append] at hp
  rcases hp with (hp | hp) | hp
  · unfold monthParts at hp
    by_cases h0 : m = 0
    · simp [h0] at hp
    · simp [h0] at hp
      rcases hp with ⟨-, hp⟩ | ⟨-, hp⟩ <;> subst hp <;>
        exact four_le_len3 _ _ _ (by decide)
  · unfold dayParts at hp
    by_cases h0 : d = 0
    · simp [h0] at hp
    · simp [h0] at hp
      subst hp
      exact four_le_len3 _ _ _ (by decide)
  · unfold nanoParts at hp
    by_cases h0 : ns = 0
    · simp [h0] at hp
    · simp [h0] at hp
      rcases hp with ⟨-, hp⟩ | ⟨-, hp⟩ | ⟨-, hp⟩ <;> subst hp <;>
        exact four_le_len3 _ _ _ (by decide)

theorem joinSpace_length_ge (p : String) (rest : List String) :
    p.length ≤ (joinSpace (p :: rest)).length := by
  cases rest with
  | nil => simp [joinSpace]
  | cons q r =>
    show p.length ≤ (p ++ " " ++ joinSpace (q :: r)).length
    rw [String.length_append, String.length_append]
    omega

theorem intervalRender_eq_zero_iff (m d ns : Int) :
    intervalRender m d ns = "INTERVAL '0'" ↔ intervalParts m d ns = [] := by
  unfold intervalRender
  constructor
  · intro h
    by_contra hne
    rcases List.exists_cons_of_ne_nil hne with ⟨p, rest, hcons⟩
    rw [hcons] at h
    have h' : ("INTERVAL '" ++ joinSpace (p :: rest) ++ "'") = "INTERVAL '0'" := by
      simpa using h
    have hlen := congrArg String.length h'
    rw [String.length_append, String.length_append] at hlen
    have h4 : 4 ≤ p.length := intervalParts_length_ge m d ns p (by rw [hcons]; simp)
    have hj : p.length ≤ (joinSpace (p :: rest)).length := joinSpace_length_ge p rest
    have h10 : ("INTERVAL '").length = 10 := by decide
    have h1 : ("'").length = 1 := by decide
    have h12 : ("INTERVAL '0'").length = 12 := by decide
    omega
  · intro h
    rw [h]
    simp

/-- C5 counterexample: the packed interval with months = 0, days = 0,
nanoseconds = 5 renders as `INTERVAL '0'` even though its nanoseconds
component is non-zero (sub-second nanoseconds are dropped by the
renderer), so "renders INTERVAL '0' iff all three packed components are
zero" is false. -/
theorem c5_interval_zero_render_counterexample :
    intervalToSqlString (packInterval 0 0 5) = "INTERVAL '0'" ∧
    unpackMonths (packInterval 0 0 5) = 0 ∧
    unpackDays (packInterval 0 0 5) = 0 ∧
    unpackNanoseconds (packInterval 0 0 5) = 5 := by
  refine ⟨by decide, by decide, by decide, by decide⟩

/-- C5 (amended): the interval renderer lists only the non-zero whole
units, and it renders exactly `INTERVAL '0'` if and only if months = 0,
days = 0 and |nanoseconds| < 10^9 (i.e. the hours, minutes and whole
seconds of the nanoseconds component are all zero; any sub-second
remainder is never rendered).  Components are restricted to the
representable non-MIN i32/i64 values, where Rust `abs` cannot panic. -/
theorem c5_interval_zero_render_iff (m d ns : Int)
    (hm1 : -(2 ^ 31) < m) (hm2 : m < 2 ^ 31)
    (hd1 : -(2 ^ 31) < d) (hd2 : d < 2 ^ 31)
    (hn1 : -(2 ^ 63) < ns) (hn2 : ns < 2 ^ 63) :
    intervalRender m d ns = "INTERVAL '0'" ↔
      (m = 0 ∧ d = 0 ∧ ns.natAbs < 1000000000) := by
  rw [intervalRender_eq_zero_iff, intervalParts_eq_nil_iff]

/-- Witness for C5 (amended) at (m, d, ns) = (0, 0, 5): renders as
`INTERVAL '0'` with a non-zero sub-second nanoseconds component. -/
theorem c5_interval_zero_render_iff_witness :
    intervalRender 0 0 5 = "INTERVAL '0'" :=
  (c5_interval_zero_render_iff 0 0 5 (by norm_num) (by norm_num) (by norm_num)
    (by norm_num) (by norm_num) (by norm_num)).mpr ⟨rfl, rfl, by norm_num⟩

theorem drawColumnTypes_stream (n : Nat) (g : Rng) :
    (drawColumnTypes g n).2.stream = g.stream := by
  induction n generalizing g with
  | zero => rfl
  | succ n ih =>
    simp [drawColumnTypes, drawColumnType, Rng.randomRangeExcl, Rng.next, ih]

theorem datasetRowCount_spec (g : Rng) (mc mr : Nat) :
    ∃ p, datasetRowCount g mc mr = g.stream p % mr := by
  simp only [datasetRowCount, generateDatasetSchema, Rng.randomRangeIncl,
    Rng.randomRangeExcl, Rng.next, drawColumnTypes_stream, Nat.sub_zero, Nat.zero_add]
  exact ⟨_, rfl⟩

/-- C6 counterexample: with max_column_count = 3 and max_row_count = 10,
a table with exactly 10 rows is *not* a possible outcome — the source
draws `rng.random_range(0..max_row_count)`, an exclusive range, not the
inclusive `[0, max_row_count]` the claim states. -/
theorem c6_row_count_counterexample : ¬ rowCountPossible 3 10 10 := by
  rintro ⟨g, hg⟩
  obtain ⟨p, hp⟩ := datasetRowCount_spec g 3 10
  rw [hp] at hg
  omega

/-- C6 (amended): for every positive configuration, the row count drawn
by `generate_dataset` lies in the half-open range `[0, max_row_count)`
(so `max_row_count` itself is impossible), and every value strictly below
`max_row_count` is a possible outcome. -/
theorem c6_row_count_range (maxColumnCount maxRowCount : Nat)
    (hc : 1 ≤ maxColumnCount) (hr : 1 ≤ maxRowCount) :
    (∀ g : Rng, datasetRowCount g maxColumnCount maxRowCount < maxRowCount) ∧
    (∀ k, k < maxRowCount → rowCountPossible maxColumnCount maxRowCount k) := by
  constructor
  · intro g
    obtain ⟨p, hp⟩ := datasetRowCount_spec g maxColumnCount maxRowCount
    rw [hp]
    exact Nat.mod_lt _ (by omega)
  · intro k hk
    refine ⟨⟨fun _ => k, 0⟩, ?_⟩
    obtain ⟨p, hp⟩ := datasetRowCount_spec ⟨fun _ => k, 0⟩ maxColumnCount maxRowCount
    rw [hp]
    exact Nat.mod_eq_of_lt hk

/-- Witness for C6 (amended) at max_column_count = 3, max_row_count = 10:
the constant-0 stream yields a row count below 10, and 9 rows are
possible. -/
theorem c6_row_count_range_witness :
    datasetRowCount ⟨fun _ => 0, 0⟩ 3 10 < 10 ∧ rowCountPossible 3 10 9 :=
  ⟨(c6_row_count_range 3 10 (by norm_num) (by norm_num)).1 ⟨fun _ => 0, 0⟩,
   (c6_row_count_range 3 10 (by norm_num) (by norm_num)).2 9 (by norm_num)⟩

theorem literalLeaf_isLeaf (g : Rng) (t : DataType) :
    ((literalLeaf g t).1).isLeaf = true := by
  unfold literalLeaf
  cases FuzzerDataType.fromDatafusionType t <;> rfl

theorem generateLeafExpr_isLeaf (registry : List LogicalTable) (srcColumns : List Column)
    (g : Rng) (t : DataType) :
    ((generateLeafExpr registry srcColumns g t).1).isLeaf = true := by
  cases hb : (getAllColumnsOfType registry srcColumns t).isEmpty with
  | true =>
    simp only [generateLeafExpr, hb, if_true]
    exact literalLeaf_isLeaf _ _
  | false =>
    simp only [generateLeafExpr, hb, Bool.false_eq_true, if_false]
    cases hcoin : (g.randomBool 1 2).1 with
    | true =>
      simp only [hcoin, if_true]
      rfl
    | false =>
      simp only [hcoin, Bool.false_eq_true, if_false]
      exact literalLeaf_isLeaf _ _

theorem exprDepth_of_isLeaf (e : Expr) (h : e.isLeaf = true) : exprDepth e = 0 := by
  cases e with
  | column c => rfl
  | literal t d => rfl
  | binary op l r => simp [Expr.isLeaf] at h

theorem exprDepth_getD (l : List Expr) (i : Nat) (dflt : Expr) (bound : Nat)
    (h : ∀ e ∈ l, exprDepth e ≤ bound) (hd : exprDepth dflt ≤ bound) :
    exprDepth (l.getD i dflt) ≤ bound := by
  rw [List.getD_eq_getElem?_getD]
  cases he : l[i]? with
  | none => simpa using hd
  | some e =>
    have hmem : e ∈ l := List.getElem?_mem he
    simpa using h e hmem

theorem buildWithChilds_depth (op : BaseExpr) (ch : List Expr) (bound : Nat)
    (h : ∀ e ∈ ch, exprDepth e ≤ bound) :
    exprDepth (buildWithChilds op ch) ≤ bound + 1 := by
  unfold buildWithChilds
  simp only [exprDepth]
  have h0 := exprDepth_getD ch 0 (.literal .boolean 0) bound h (Nat.zero_le _)
  have h1 := exprDepth_getD ch 1 (.literal .boolean 0) bound h (Nat.zero_le _)
  omega

theorem generateChildren_depth (registry : List LogicalTable) (srcColumns : List Column)
    (fuel : Nat)
    (hgen : ∀ g t, exprDepth (generateRandomExpr registry srcColumns fuel g t).1 ≤ fuel) :
    ∀ sig g, ∀ e ∈ (generateChildren registry srcColumns fuel g sig).1, exprDepth e ≤ fuel := by
  intro sig
  induction sig with
  | nil =>
    intro g e he
    rw [generateChildren] at he
    simp at he
  | cons t ts ih =>
    intro g e he
    rw [generateChildren] at he
    simp only [List.mem_cons] at he
    rcases he with he | he
    · rw [he]
      exact hgen g t
    · exact ih _ e he

theorem generateRandomExpr_depth (registry : List LogicalTable) (srcColumns : List Column) :
    ∀ fuel g targetType,
      exprDepth (generateRandomExpr registry srcColumns fuel g targetType).1 ≤ fuel := by
  intro fuel
  induction fuel using Nat.strong_induction_on with
  | _ fuel ih =>
    intro g targetType
    rw [generateRandomExpr]
    split
    · rw [exprDepth_of_isLeaf _ (generateLeafExpr_isLeaf _ _ _ _)]
      exact Nat.zero_le _
    · split
      · rw [exprDepth_of_isLeaf _ (generateLeafExpr_isLeaf _ _ _ _)]
        exact Nat.zero_le _
      · split
        · rw [exprDepth_of_isLeaf _ (generateLeafExpr_isLeaf _ _ _ _)]
          exact Nat.zero_le _
        · have hlt : fuel - 1 < fuel := by omega
          have hrec : ∀ g t,
              exprDepth (generateRandomExpr registry srcColumns (fuel - 1) g t).1 ≤ fuel - 1 :=
            fun g t => ih (fuel - 1) hlt g t
          have hch := generateChildren_depth registry srcColumns (fuel - 1) hrec
          refine le_trans (buildWithChilds_depth _ _ (fuel - 1) (hch _ _)) (by omega)

theorem generateRandomExpr_zero_isLeaf (registry : List LogicalTable)
    (srcColumns : List Column) (g : Rng) (targetType : DataType) :
    ((generateRandomExpr registry srcColumns 0 g targetType).1).isLeaf = true := by
  rw [generateRandomExpr]
  simp only [reduceDIte]
  exact generateLeafExpr_isLeaf _ _ _ _

/-- C9: for every target type and every starting level
`cur_level ≤ max_expr_level`, `generate_random_expr` (embedded with fuel
`max_expr_level - cur_level`) terminates with an expression whose
operator-nesting depth is at most `max_expr_level - cur_level`; when
`cur_level = max_expr_level` the result is always a leaf (column
reference or literal), whatever the coin flips produced. -/
theorem c9_generate_random_expr_depth (registry : List LogicalTable)
    (srcColumns : List Column) (maxLevel curLevel : Nat) (g : Rng)
    (targetType : DataType) (h : curLevel ≤ maxLevel) :
    exprDepth (generateRandomExpr registry srcColumns (maxLevel - curLevel) g targetType).1
      ≤ maxLevel - curLevel ∧
    (curLevel = maxLevel →
      ((generateRandomExpr registry srcColumns (maxLevel - curLevel) g targetType).1).isLeaf
        = true) := by
  constructor
  · exact generateRandomExpr_depth registry srcColumns (maxLevel - curLevel) g targetType
  · intro heq
    have hz : maxLevel - curLevel = 0 := by omega
    rw [hz]
    exact generateRandomExpr_zero_isLeaf registry srcColumns g targetType

/-- Witness for C9 at max_expr_level = 3, cur_level = 3 (the hard-cap
case) with an always-false coin stream: the result is a leaf of depth 0. -/
theorem c9_generate_random_expr_depth_witness :
    exprDepth (generateRandomExpr [] [] (3 - 3) ⟨fun _ => 1, 0⟩ .int64).1 ≤ 3 - 3 ∧
    (3 = 3 →
      ((generateRandomExpr [] [] (3 - 3) ⟨fun _ => 1, 0⟩ .int64).1).isLeaf = true) :=
  c9_generate_random_expr_depth [] [] 3 3 ⟨fun _ => 1, 0⟩ .int64 (by decide)

theorem chooseMultiple_length :
    ∀ (n : Nat) (g : Rng) (l : List LogicalTable),
      ((chooseMultiple g l n).1).length = min n l.length := by
  intro n
  induction n with
  | zero =>
    intro g l
    simp [chooseMultiple]
  | succ n ih =>
    intro g l
    by_cases h : l = []
    · simp [chooseMultiple, h]
    · rw [chooseMultiple, dif_neg h]
      simp only [List.length_cons]
      rw [ih]
      have hx : l.get ⟨(g.next).1 % l.length, Nat.mod_lt (g.next).1 (List.length_pos.mpr h)⟩
          ∈ l := List.get_mem l _ _
      rw [List.length_erase_of_mem hx]
      have hpos : 0 < l.length := List.length_pos.mpr h
      omega

theorem chooseMultiple_subset :
    ∀ (n : Nat) (g : Rng) (l : List LogicalTable),
      ∀ t ∈ (chooseMultiple g l n).1, t ∈ l := by
  intro n
  induction n with
  | zero =>
    intro g l t ht
    simp [chooseMultiple] at ht
  | succ n ih =>
    intro g l t ht
    by_cases h : l = []
    · simp [chooseMultiple, h] at ht
    · rw [chooseMultiple, dif_neg h] at ht
      simp only [List.mem_cons] at ht
      rcases ht with ht | ht
      · rw [ht]
        exact List.get_mem l _ _
      · exact List.erase_subset _ _ (ih _ _ t ht)

theorem chooseMultiple_nodup :
    ∀ (n : Nat) (g : Rng) (l : List LogicalTable), l.Nodup →
      ((chooseMultiple g l n).1).Nodup := by
  intro n
  induction n with
  | zero =>
    intro g l _
    simp [chooseMultiple]
  | succ n ih =>
    intro g l hnd
    by_cases h : l = []
    · simp [chooseMultiple, h]
    · rw [chooseMultiple, dif_neg h]
      rw [List.nodup_cons]
      constructor
      · intro hmem
        have hx := chooseMultiple_subset n _ _ _ hmem
        rw [List.Nodup.mem_erase_iff hnd] at hx
        exact hx.1 rfl
      · exact ih _ _ (hnd.erase _)

theorem randomRangeIncl_bounds (g : Rng) (lo hi : Nat) (h : lo ≤ hi) :
    lo ≤ (g.randomRangeIncl lo hi).1 ∧ (g.randomRangeIncl lo hi).1 ≤ hi := by
  have hm := Nat.mod_lt (g.stream g.pos) (show 0 < hi + 1 - lo by omega)
  simp only [Rng.randomRangeIncl, Rng.next]
  omega

theorem pick_src_tables_spec (g : Rng) (m : Nat) (registry : List LogicalTable)
    (hm : 1 ≤ m) (hnd : registry.Nodup) :
    (registry = [] ∧ pick_src_tables g m registry = .error emptyRegistryError) ∨
    (registry ≠ [] ∧ ∃ sel g'',
      pick_src_tables g m registry = .ok (sel, g'') ∧
      1 ≤ sel.length ∧ sel.length ≤ min m registry.length ∧
      sel.Nodup ∧ ∀ t ∈ sel, t ∈ registry) := by
  by_cases h : registry = []
  · left
    refine ⟨h, ?_⟩
    simp [pick_src_tables, h]
  · right
    refine ⟨h, ?_⟩
    have hne : registry.isEmpty = false := by
      simp [List.isEmpty_iff, h]
    have hpos : 0 < registry.length := List.length_pos.mpr h
    have hbounds := randomRangeIncl_bounds g 1 m hm
    refine ⟨(chooseMultiple (g.randomRangeIncl 1 m).2 registry
        (min (g.randomRangeIncl 1 m).1 registry.length)).1,
      (chooseMultiple (g.randomRangeIncl 1 m).2 registry
        (min (g.randomRangeIncl 1 m).1 registry.length)).2, ?_, ?_, ?_, ?_, ?_⟩
    · simp [pick_src_tables, hne]
    · rw [chooseMultiple_length]
      omega
    · rw [chooseMultiple_length]
      omega
    · exact chooseMultiple_nodup _ _ _ hnd
    · exact chooseMultiple_subset _ _ _

/-- C7: `generate_stmt` (via `pick_src_tables`) returns an explicit error
iff the table registry is empty; on a non-empty registry the statement's
FROM list holds between 1 and min(max_table_count, #tables) distinct
tables, all drawn without replacement from the registry. -/
theorem c7_generate_stmt_src_tables (rngFromSeed : Nat → Rng) (g : Rng)
    (maxTableCount maxExprLevel : Nat) (registry : List LogicalTable)
    (hmax : 1 ≤ maxTableCount) (hnd : registry.Nodup) :
    ((∃ e, generate_stmt rngFromSeed maxTableCount maxExprLevel g registry
        = .error e) ↔ registry = []) ∧
    ∀ stmt, generate_stmt rngFromSeed maxTableCount maxExprLevel g registry = .ok stmt →
      1 ≤ stmt.fromTables.length ∧
      stmt.fromTables.length ≤ min maxTableCount registry.length ∧
      stmt.fromTables.Nodup ∧
      ∀ t ∈ stmt.fromTables, t ∈ registry := by
  rcases pick_src_tables_spec g maxTableCount registry hmax hnd with
    ⟨hreg, hpick⟩ | ⟨hreg, sel, g'', hpick, hlen1, hlen2, hnodup, hsub⟩
  · constructor
    · constructor
      · intro _
        exact hreg
      · intro _
        exact ⟨emptyRegistryError, by simp [generate_stmt, hpick]⟩
    · intro stmt hstmt
      simp [generate_stmt, hpick] at hstmt
  · constructor
    · constructor
      · rintro ⟨e, he⟩
        simp [generate_stmt, hpick] at he
      · intro hh
        exact absurd hh hreg
    · intro stmt hstmt
      simp only [generate_stmt, hpick] at hstmt
      rw [Except.ok.injEq] at hstmt
      rw [← hstmt]
      exact ⟨hlen1, hlen2, hnodup, hsub⟩

/-- Witness for C7: a two-table registry with max_table_count = 3 yields
an Ok statement whose FROM list is a non-empty, duplicate-free
sub-collection of the registry; the empty registry yields an error. -/
theorem c7_generate_stmt_src_tables_witness :
    ((∃ e, generate_stmt (fun s => ⟨fun _ => s, 0⟩) 3 2 ⟨fun _ => 0, 0⟩
        ([] : List LogicalTable) = .error e) ↔ ([] : List LogicalTable) = []) ∧
    ∀ stmt, generate_stmt (fun s => ⟨fun _ => s, 0⟩) 3 2 ⟨fun _ => 0, 0⟩ [] = .ok stmt →
      1 ≤ stmt.fromTables.length ∧
      stmt.fromTables.length ≤ min 3 ([] : List LogicalTable).length ∧
      stmt.fromTables.Nodup ∧
      ∀ t ∈ stmt.fromTables, t ∈ ([] : List LogicalTable) :=
  c7_generate_stmt_src_tables (fun s => ⟨fun _ => s, 0⟩) ⟨fun _ => 0, 0⟩ 3 2 []
    (by norm_num) (by simp)

/-- C8 counterexample: `validate_consistency` does *not* return Ok for
every slice — the empty slice returns an explicit error. -/
theorem c8_validate_consistency_counterexample :
    validate_consistency [] = .error "No query results to validate" := rfl

/-- C8 (amended): `NoCrashOracle::validate_consistency` returns Ok for
every *non-empty* slice of query execution results, whatever their
individual outcomes (its real check, whitelist matching, happens earlier
at execution time); the empty slice returns an error. -/
theorem c8_validate_consistency_ok (results : List QueryExecutionResult)
    (h : results ≠ []) : validate_consistency results = .ok () := by
  unfold validate_consistency
  rw [if_neg]
  simp [List.isEmpty_iff, h]

/-- Witness for C8 (amended): a singleton slice holding a failed query
still passes validation. -/
theorem c8_validate_consistency_ok_witness :
    validate_consistency [⟨"SELECT 1", false⟩] = .ok () :=
  c8_validate_consistency_ok [⟨"SELECT 1", false⟩] (by simp)

/-- C1: the run-loop trace — generated table names, generated query
strings, and oracle pass/fail outcomes — is a function of the
configuration (rounds, queries per round, phase functions) and the seed
alone: two runs with the same seed produce identical traces, for *every*
choice of deterministic phase functions.  (Engine interaction, including
timeouts, is modelled by the deterministic phase functions; per-query
wall-clock timing is outside the embedding.) -/
theorem c1_run_fuzzer_deterministic {σ : Type} (ph : PipelinePhases σ)
    (rounds queriesPerRound seed₁ seed₂ : Nat) (h : seed₁ = seed₂) :
    run_fuzzer ph rounds queriesPerRound seed₁ = run_fuzzer ph rounds queriesPerRound seed₂ := by
  rw [h]

/-- Witness for C1: a concrete two-round, three-query pipeline over a
`Nat` state run twice at seed 42. -/
theorem c1_run_fuzzer_deterministic_witness :
    run_fuzzer ⟨0, id, fun sd s => (s + 1, [toString sd]), fun _ s => s,
        fun sd s => (s, (toString sd, true)), fun _ => 0⟩ 2 3 42 =
    run_fuzzer ⟨0, id, fun sd s => (s + 1, [toString sd]), fun _ s => s,
        fun sd s => (s, (toString sd, true)), fun _ => 0⟩ 2 3 42 :=
  c1_run_fuzzer_deterministic _ 2 3 42 42 rfl

end DatafusionFuzzer
